import Mathlib

/-!
# Verification of the plyra-guard action-safety core

A shallow embedding, in Lean 4, of the parts of the plyra-guard middleware
that the verified properties concern: the verdict data model, audit-entry
parameter sanitization, the policy-condition compiler and evaluator, the
sensitive-path check, the evaluation pipeline's worst-verdict combination,
the rate limiter, the global budget manager and cost estimator ledgers,
the trust ledger, the human gate, and the rollback coordinator.

Python `dict[str, Any]` values are embedded as association lists of
`String × Value` over a JSON-like `Value` type; mutation becomes explicit
state passing; Python exceptions become `Except`.  Python `float` costs,
scores and timestamps are embedded as `ℚ`.
-/

namespace PlyraGuard

/-- JSON-compatible parameter values (`dict[str, Any]` leaves in the source).
Python tuples produced by the condition evaluator are folded into `.list`;
dict keys are strings, as everywhere in the source's parameter maps. -/
inductive Value where
  | str (s : String)
  | num (q : ℚ)
  | bool (b : Bool)
  | null
  | list (xs : List Value)
  | dict (entries : List (String × Value))

/-- Key lookup in an embedded Python dict (first binding wins). -/
def dlookup {α : Type} (entries : List (String × α)) (k : String) :
    Option α :=
  match entries with
  | [] => none
  | (k', v) :: rest => if k' = k then some v else dlookup rest k

/-- `d[k] = v` on an embedded dict: replaces any existing binding for `k`.
Binding order differs from CPython's insertion order, but `dlookup` agrees
with Python dict lookup, which is the only observation the source makes. -/
def dset {α : Type} (entries : List (String × α)) (k : String) (v : α) :
    List (String × α) :=
  (k, v) :: entries.filter (fun p => p.1 ≠ k)

/-- `d.pop(k, None)`: the removed value (if any) and the remaining dict. -/
def dpop {α : Type} (entries : List (String × α)) (k : String) :
    Option α × List (String × α) :=
  (dlookup entries k, entries.filter (fun p => p.1 ≠ k))

/-- Lookup with a default, as `collections.defaultdict` reads do. -/
def dgetD {α : Type} (entries : List (String × α)) (k : String) (d : α) : α :=
  (dlookup entries k).getD d

/-- ASCII `str.lower()` on one character, structurally computable. -/
def charToLower (c : Char) : Char :=
  if 'A' ≤ c ∧ c ≤ 'Z' then Char.ofNat (c.toNat + 32) else c

/-- `str.lower()` (the source's keys, paths and method names are ASCII). -/
def strToLower (s : String) : String := String.mk (s.toList.map charToLower)

/-- ASCII `str.upper()` on one character. -/
def charToUpper (c : Char) : Char :=
  if 'a' ≤ c ∧ c ≤ 'z' then Char.ofNat (c.toNat - 32) else c

/-- `str.upper()`. -/
def strToUpper (s : String) : String := String.mk (s.toList.map charToUpper)

/-- `str.startswith(pre)`. -/
def strStartsWith (s pre : String) : Bool := pre.toList.isPrefixOf s.toList

/-- `str.endswith(suf)`. -/
def strEndsWith (s suf : String) : Bool := suf.toList.isSuffixOf s.toList

/-- `path.replace("\\", "/")` — the single-character replacement used by
`_is_sensitive_path`. -/
def normalizeSlashes (s : String) : String :=
  String.mk (s.toList.map (fun c => if c = '\\' then '/' else c))

/-- `core/verdict.py` — `Verdict` enum. -/
inductive Verdict where
  | ALLOW | BLOCK | ESCALATE | DEFER | WARN
deriving DecidableEq, Repr

/-- `Verdict.is_blocking`. -/
def Verdict.isBlocking : Verdict → Bool
  | .BLOCK => true
  | .ESCALATE => true
  | .DEFER => true
  | _ => false

/-- The severity table used by `ActionGuard._worst_verdict` and the policy
engine (`_VERDICT_SEVERITY`): lower is more severe. -/
def verdictSeverity : Verdict → Nat
  | .BLOCK => 0
  | .ESCALATE => 1
  | .DEFER => 2
  | .WARN => 3
  | .ALLOW => 4

/-- `core/verdict.py` — `RiskLevel` enum. -/
inductive RiskLevel where
  | LOW | MEDIUM | HIGH | CRITICAL
deriving DecidableEq, Repr

/-- `core/verdict.py` — `TrustLevel` enum. -/
inductive TrustLevel where
  | HUMAN | ORCHESTRATOR | PEER | SUB_AGENT | UNKNOWN
deriving DecidableEq, Repr

/-- `TrustLevel.score`. -/
def TrustLevel.score : TrustLevel → ℚ
  | .HUMAN => 1
  | .ORCHESTRATOR => 8/10
  | .PEER => 5/10
  | .SUB_AGENT => 3/10
  | .UNKNOWN => 0

/-- `core/intent.py` — `EvaluatorResult`. -/
structure EvaluatorResult where
  verdict : Verdict
  reason : String := ""
  confidence : ℚ := 1
  evaluatorName : String := ""
  suggestedAction : Option String := none
  metadata : List (String × Value) := []

/-- `core/intent.py` — `ActionIntent`, restricted to the fields the verified
components read (`instruction_chain`, `task_context`, free-form `metadata`
and the wall-clock timestamp are carried through unread by these claims). -/
structure ActionIntent where
  actionId : String
  actionType : String
  toolName : String := ""
  parameters : List (String × Value) := []
  agentId : String
  taskId : Option String := none
  riskLevel : RiskLevel := .MEDIUM
  estimatedCost : ℚ := 0

/-- `core/intent.py` — `AuditEntry`, restricted likewise. -/
structure AuditEntry where
  actionId : String
  agentId : String
  actionType : String
  verdict : Verdict
  riskScore : ℚ := 0
  taskId : Option String := none
  policyTriggered : Option String := none
  parameters : List (String × Value) := []
  durationMs : Nat := 0
  rolledBack : Bool := false
  error : Option String := none

/-- `ExecutionGate._sanitize_params` — the set of credential key names. -/
def sensitiveKeys : List String :=
  ["password", "secret", "token", "api_key", "apikey", "credential",
   "private_key", "access_token", "refresh_token", "auth"]

/-- `ExecutionGate._sanitize_params`: a key whose lowercase form is
sensitive has its value replaced by `"***REDACTED***"`; otherwise a dict
value is sanitized recursively and every other value passes through. -/
def sanitizeParams : List (String × Value) → List (String × Value)
  | [] => []
  | (k, v) :: rest =>
    (if strToLower k ∈ sensitiveKeys then (k, Value.str "***REDACTED***")
     else match v with
          | Value.dict entries => (k, Value.dict (sanitizeParams entries))
          | _ => (k, v)) :: sanitizeParams rest

/-- `ExecutionGate._build_audit`: the gate's audit entry carries
`sanitizeParams intent.parameters`. -/
def buildAudit (intent : ActionIntent) (verdict : Verdict) (riskScore : ℚ)
    (policyTriggered : Option String) (durationMs : Nat)
    (error : Option String) : AuditEntry :=
  { actionId := intent.actionId
    agentId := intent.agentId
    actionType := intent.actionType
    verdict := verdict
    riskScore := riskScore
    taskId := intent.taskId
    policyTriggered := policyTriggered
    parameters := sanitizeParams intent.parameters
    durationMs := durationMs
    error := error }

/-- `ActionGuard._record_blocked`: the audit entry written for a blocked
intent carries `intent.parameters` as-is (the source does not pass them
through `_sanitize_params`); `AuditLog.write` then appends the entry and
forwards the same object unchanged to every exporter. -/
def recordBlocked (intent : ActionIntent) (result : EvaluatorResult)
    (riskScore : ℚ) (policyTriggered : Option String) : AuditEntry :=
  { actionId := intent.actionId
    agentId := intent.agentId
    actionType := intent.actionType
    verdict := result.verdict
    riskScore := riskScore
    taskId := intent.taskId
    policyTriggered := policyTriggered
    parameters := intent.parameters }

/-! ## Python value semantics used by the condition evaluator

`policy_engine.py` evaluates compiled conditions with ordinary Python
operator semantics (`operator.gt`, `operator.contains`, `bool(...)`, …).
The helpers below embed those semantics on `Value`.  Python `int`/`float`
are both embedded as `ℚ`; `bool` participates in numeric comparison as
0/1, as in Python. -/

/-- Python truthiness (`bool(x)`). -/
def truthy : Value → Bool
  | .null => false
  | .bool b => b
  | .num q => q ≠ 0
  | .str s => s ≠ ""
  | .list xs => !xs.isEmpty
  | .dict es => !es.isEmpty

/-- Coerce a Python bool to its numeric value (bool is a subclass of int). -/
def boolToNum (b : Bool) : ℚ := if b then 1 else 0

mutual
/-- Python `==` on embedded values.  Dict equality is entry-list equality
(the source only ever compares parameter dicts that share construction
order, where this coincides with Python's order-insensitive dict `==`). -/
def pyEq : Value → Value → Bool
  | .num a, .num b => a == b
  | .num a, .bool b => a == boolToNum b
  | .bool a, .num b => boolToNum a == b
  | .bool a, .bool b => a == b
  | .str a, .str b => a == b
  | .null, .null => true
  | .list xs, .list ys => pyEqList xs ys
  | .dict xs, .dict ys => pyEqEntries xs ys
  | _, _ => false

def pyEqList : List Value → List Value → Bool
  | [], [] => true
  | x :: xs, y :: ys => pyEq x y && pyEqList xs ys
  | _, _ => false

def pyEqEntries : List (String × Value) → List (String × Value) → Bool
  | [], [] => true
  | (k, v) :: xs, (k', v') :: ys => k == k' && pyEq v v' && pyEqEntries xs ys
  | _, _ => false
end

/-- Evaluation-time failures inside a compiled condition. -/
inductive EvalError where
  | condErr (msg : String)
  | pyExc (msg : String)

mutual
/-- Python `<` (`operator.lt`): numbers (bools coerced), strings, and
lists lexicographically; every other combination raises `TypeError`. -/
def pyLt : Value → Value → Except EvalError Bool
  | .num a, .num b => .ok (decide (a < b))
  | .num a, .bool b => .ok (decide (a < boolToNum b))
  | .bool a, .num b => .ok (decide (boolToNum a < b))
  | .bool a, .bool b => .ok (decide (boolToNum a < boolToNum b))
  | .str a, .str b => .ok (decide (a < b))
  | .list xs, .list ys => pyLtList xs ys
  | _, _ => .error (.pyExc "unsupported operand types for comparison")

def pyLtList : List Value → List Value → Except EvalError Bool
  | [], [] => .ok false
  | [], _ :: _ => .ok true
  | _ :: _, [] => .ok false
  | x :: xs, y :: ys =>
    if pyEq x y then pyLtList xs ys
    else pyLt x y
end

/-- Substring test (`needle in haystack` for Python strings). -/
def strContainsSubstr (hay needle : String) : Bool :=
  (List.range (hay.toList.length + 1)).any fun i =>
    needle.toList.isPrefixOf (hay.toList.drop i)

/-- Python `operator.contains(container, item)`: list membership by `==`,
substring for strings, key membership for dicts (whose keys are strings);
non-container right operands raise `TypeError`, unhashable items checked
against a dict raise `TypeError`. -/
def pyContains : Value → Value → Except EvalError Bool
  | .list xs, a => .ok (xs.any (fun x => pyEq a x))
  | .str s, .str sub => .ok (strContainsSubstr s sub)
  | .str _, _ => .error (.pyExc "in <string> requires string as left operand")
  | .dict _, .list _ => .error (.pyExc "unhashable type")
  | .dict _, .dict _ => .error (.pyExc "unhashable type")
  | .dict es, .str k => .ok (es.any (fun p => p.1 == k))
  | .dict _, _ => .ok false
  | _, _ => .error (.pyExc "argument is not a container")

/-- Python `str(x)`.  String rendering of numbers and containers is
approximated (integers render exactly; the conditions in scope only pipe
`str(...)` into `is_sensitive_path`, which never receives numbers). -/
def pyStr : Value → String
  | .str s => s
  | .bool b => if b then "True" else "False"
  | .null => "None"
  | .num q => if q.den = 1 then toString q.num else toString q
  | .list _ => "[...]"
  | .dict _ => "{...}"

/-- Python `int(x)`: truncation toward zero for numbers, parsing for
strings (`ValueError` on failure), 0/1 for bools, `TypeError` otherwise. -/
def pyInt : Value → Except EvalError ℚ
  | .num q => .ok (if q ≥ 0 then (⌊q⌋ : ℚ) else (⌈q⌉ : ℚ))
  | .bool b => .ok (boolToNum b)
  | .str s =>
    match s.trim.toInt? with
    | some i => .ok (i : ℚ)
    | none => .error (.pyExc ("invalid literal for int: " ++ s))
  | _ => .error (.pyExc "int argument must be a string or a number")

/-- Python `len(x)` for strings, lists and dicts; `TypeError` otherwise. -/
def pyLen : Value → Except EvalError ℚ
  | .str s => .ok (s.length : ℚ)
  | .list xs => .ok (xs.length : ℚ)
  | .dict es => .ok (es.length : ℚ)
  | _ => .error (.pyExc "object has no len")

/-! ## PII patterns and sensitive paths (`policy_engine.py` module level) -/

/-- A regex word character, for `\b` boundaries. -/
def isWordChar (c : Char) : Bool := c.isAlphanum || c = '_'

/-- Whether the character on one side of a candidate boundary is a word
character (`none` = string edge, never a word character). -/
def isWordCharO : Option Char → Bool
  | some c => isWordChar c
  | none => false

/-- `\b` holds between two characters iff exactly one side is a word
character. -/
def wordBoundary (left right : Option Char) : Bool :=
  isWordCharO left != isWordCharO right

/-- Match a fixed-shape pattern (a character predicate per position),
returning the unconsumed suffix. -/
def matchShape : List (Char → Bool) → List Char → Option (List Char)
  | [], rest => some rest
  | _ :: _, [] => none
  | p :: ps, c :: rest => if p c then matchShape ps rest else none

/-- The character just before position `i`, if any. -/
def charBefore (cs : List Char) (i : Nat) : Option Char :=
  if i = 0 then none else cs.get? (i - 1)

/-- `re.search` for a fixed-shape pattern wrapped in `\b ... \b`. -/
def searchShape (shape : List (Char → Bool)) (cs : List Char) : Bool :=
  (List.range (cs.length + 1)).any fun i =>
    match matchShape shape (cs.drop i) with
    | some rest =>
      wordBoundary (charBefore cs i) ((cs.drop i).head?)
        && wordBoundary (charBefore cs (i + shape.length)) rest.head?
    | none => false

/-- `\b\d{3}-\d{2}-\d{4}\b` (SSN). -/
def ssnShape : List (Char → Bool) :=
  List.replicate 3 Char.isDigit ++ [fun c => c == '-']
    ++ List.replicate 2 Char.isDigit ++ [fun c => c == '-']
    ++ List.replicate 4 Char.isDigit

/-- `\b\d{16}\b` (credit card, simple). -/
def cardShape : List (Char → Bool) := List.replicate 16 Char.isDigit

/-- The phone pattern's separator class.  The source writes the raw string
`[-.\\s]`, whose class is the literal characters `-`, `.`, `\` and `s`
(not whitespace — the double backslash inside a raw string is a literal
backslash followed by the letter `s`). -/
def phoneSep (c : Char) : Bool := c = '-' || c = '.' || c = '\\' || c = 's'

/-- The four expansions of `\b\d{3}[-.\\s]?\d{3}[-.\\s]?\d{4}\b`. -/
def phoneShapes : List (List (Char → Bool)) :=
  let d3 := List.replicate 3 Char.isDigit
  let d4 := List.replicate 4 Char.isDigit
  [d3 ++ [phoneSep] ++ d3 ++ [phoneSep] ++ d4,
   d3 ++ [phoneSep] ++ d3 ++ d4,
   d3 ++ d3 ++ [phoneSep] ++ d4,
   d3 ++ d3 ++ d4]

/-- Local-part class of the email pattern: `[A-Za-z0-9._%+-]`. -/
def emailLocalChar (c : Char) : Bool :=
  c.isAlphanum || c = '.' || c = '_' || c = '%' || c = '+' || c = '-'

/-- Domain class of the email pattern: `[A-Za-z0-9.-]`. -/
def emailDomainChar (c : Char) : Bool :=
  c.isAlphanum || c = '.' || c = '-'

/-- Final class of the email pattern: `[A-Z|a-z]` — the source's class
includes the literal `|`. -/
def emailTldChar (c : Char) : Bool := c.isAlpha || c = '|'

/-- `re.search` for
`\b[A-Za-z0-9._%+-]+@[A-Za-z0-9.-]+\.[A-Z|a-z]{2,}\b`, as existence of a
decomposition (equivalent to the backtracking engine's search). -/
def emailSearch (cs : List Char) : Bool :=
  (List.range (cs.length + 1)).any fun i =>
    wordBoundary (charBefore cs i) ((cs.drop i).head?)
      && (let rest := cs.drop i
          (List.range (rest.length + 1)).any fun l =>
            1 ≤ l && (rest.take l).all emailLocalChar
              && (match rest.drop l with
                  | '@' :: rest2 =>
                    (List.range (rest2.length + 1)).any fun d =>
                      1 ≤ d && (rest2.take d).all emailDomainChar
                        && (match rest2.drop d with
                            | '.' :: rest3 =>
                              (List.range (rest3.length + 1)).any fun t =>
                                2 ≤ t && (rest3.take t).all emailTldChar
                                  && wordBoundary ((rest3.take t).getLast?)
                                      ((rest3.drop t).head?)
                            | _ => false)
                  | _ => false))

/-- `_PII_PATTERNS`: a string matches if any of the four compiled patterns
finds a match. -/
def piiStringMatch (s : String) : Bool :=
  let cs := s.toList
  searchShape ssnShape cs || emailSearch cs || searchShape cardShape cs
    || phoneShapes.any (fun sh => searchShape sh cs)

mutual
/-- `_contains_pii._scan`: strings are matched against the PII patterns,
dicts scan their values, lists scan their elements, everything else is
`False`. -/
def piiScan : Value → Bool
  | .str s => piiStringMatch s
  | .dict es => piiScanEntries es
  | .list xs => piiScanList xs
  | _ => false

def piiScanList : List Value → Bool
  | [] => false
  | v :: rest => piiScan v || piiScanList rest

def piiScanEntries : List (String × Value) → Bool
  | [] => false
  | (_, v) :: rest => piiScan v || piiScanEntries rest
end

/-- `_contains_pii(params)`: scans a parameter dict. -/
def containsPii (params : List (String × Value)) : Bool :=
  piiScanEntries params

/-- `_SENSITIVE_PATHS`. -/
def sensitivePaths : List String :=
  ["/etc", "/sys", "/proc", "/boot", "/root", "/var/log", "/usr/sbin",
   "C:\\Windows\\System32"]

/-- `_is_sensitive_path`: normalize `\` to `/` in both the path and each
listed prefix, then test `str.startswith` — which in the source is a
case-SENSITIVE prefix match. -/
def isSensitivePath (path : String) : Bool :=
  let normalized := normalizeSlashes path
  sensitivePaths.any fun sp => strStartsWith normalized (normalizeSlashes sp)

/-- Modelled from the spec's words for claim C8 ("case-insensitive prefix
match after normalizing `\` to `/`"): the spec-side sensitive-path check,
to be compared with `isSensitivePath` above. -/
def specSensitivePathCI (path : String) : Bool :=
  let normalized := strToLower (normalizeSlashes path)
  sensitivePaths.any fun sp =>
    strStartsWith normalized (strToLower (normalizeSlashes sp))

/-! ## The condition compiler (`_compile_condition` and `_eval_node`) -/

/-- The comparison operator nodes of `ast.Compare`.  `_SAFE_OPS` maps the
first eight; any other cmpop node (`Is`, `IsNot`) is absent from the table
and `_eval_node` raises `PolicyConditionError "Unsupported operator"`. -/
inductive CmpOp where
  | gt | lt | ge | le | eq | ne | inOp | notIn
  | unsupported (name : String)

/-- The expression nodes `ast.parse(source, mode="eval")` can produce, as
consumed by `_eval_node`/`_eval_call`.  The first group is the accepted
surface; the second group (`setLit` onward) parses as a valid Python
expression but is handled by no `isinstance` branch, so `_eval_node`
reaches its final `raise PolicyConditionError("Unsupported expression
node: ...")`.  `callName`/`callMethod`/`callOther` split `ast.Call` by the
shape of its `func`, exactly as `_eval_call` does. -/
inductive PyExpr where
  | const (v : Value)
  | name (id : String)
  | boolAnd (vals : List PyExpr)
  | boolOr (vals : List PyExpr)
  | unaryNot (operand : PyExpr)
  | compare (left : PyExpr) (rest : List (CmpOp × PyExpr))
  | attribute (value : PyExpr) (attr : String)
  | callName (func : String) (args : List PyExpr)
  | callMethod (obj : PyExpr) (method : String) (args : List PyExpr)
  | callOther
  | listLit (elts : List PyExpr)
  | tupleLit (elts : List PyExpr)
  | subscript (value slice : PyExpr)
  | ifExp (test body orelse : PyExpr)
  | setLit (elts : List PyExpr)
  | dictLit (pairs : List (PyExpr × PyExpr))
  | comp (kind : String)
  | lambdaExp
  | binOp (left right : PyExpr)
  | unaryOther (op : String) (operand : PyExpr)

/-- The evaluation context dict built by `PolicyEngine._build_context`. -/
abbrev Ctx := List (String × Value)

/-- `_resolve_name`: the literal names, then context lookup, then `""`. -/
def resolveName (n : String) (ctx : Ctx) : Value :=
  if n = "True" then .bool true
  else if n = "False" then .bool false
  else if n = "None" then .null
  else match dlookup ctx n with
       | some v => v
       | none => .str ""

/-- Dispatch of one `_SAFE_OPS` comparison. -/
def applyCmp : CmpOp → Value → Value → Except EvalError Bool
  | .gt, a, b => pyLt b a
  | .lt, a, b => pyLt a b
  | .ge, a, b => do pure !(← pyLt a b)
  | .le, a, b => do pure !(← pyLt b a)
  | .eq, a, b => .ok (pyEq a b)
  | .ne, a, b => .ok !(pyEq a b)
  | .inOp, a, b => pyContains b a
  | .notIn, a, b => do pure !(← pyContains b a)
  | .unsupported n, _, _ =>
    .error (.condErr ("Unsupported operator: " ++ n))

/-- `ast.Subscript` evaluation: `value[slc]` with `KeyError`, `IndexError`
and `TypeError` all caught and turned into `""`.  List indices follow
Python conventions (bools as 0/1, negative indices from the end). -/
def pySubscript (value slc : Value) : Value :=
  match value, slc with
  | .dict es, .str k => (dlookup es k).getD (.str "")
  | .list xs, .num q =>
    if q.den = 1 then
      let i := q.num
      let n : ℤ := xs.length
      if 0 ≤ i ∧ i < n then (xs.get? i.toNat).getD (.str "")
      else if -n ≤ i ∧ i < 0 then (xs.get? (i + n).toNat).getD (.str "")
      else .str ""
    else .str ""
  | .list xs, .bool b => (xs.get? (if b then 1 else 0)).getD (.str "")
  | .str s, .num q =>
    if q.den = 1 then
      let i := q.num
      let n : ℤ := s.length
      if 0 ≤ i ∧ i < n then
        match (s.toList.get? i.toNat) with
        | some c => .str (String.mk [c])
        | none => .str ""
      else if -n ≤ i ∧ i < 0 then
        match (s.toList.get? (i + n).toNat) with
        | some c => .str (String.mk [c])
        | none => .str ""
      else .str ""
    else .str ""
  | _, _ => .str ""

/-- `isinstance(x, typename)` with `_type_map`; an unknown or non-string
type name maps to `type(None)`.  The embedding collapses Python's `int`
and `float` into `.num`: `"int"` tests for an integral number or a bool
(bool is a subclass of int), `"float"` for any number. -/
def pyIsinstance (x : Value) (typeName : Value) : Bool :=
  let n := match typeName with | .str s => s | _ => ""
  if n = "str" then match x with | .str _ => true | _ => false
  else if n = "int" then
    match x with | .num q => q.den = 1 | .bool _ => true | _ => false
  else if n = "float" then match x with | .num _ => true | _ => false
  else if n = "dict" then match x with | .dict _ => true | _ => false
  else if n = "list" then match x with | .list _ => true | _ => false
  else match x with | .null => true | _ => false

/-- The method-call half of `_eval_call` (`node.func` an `ast.Attribute`),
operating on the already-evaluated receiver and arguments: a `None`
receiver short-circuits to `False`/`""`; otherwise the source tests each
`(name, receiver-type)` pair in turn and raises
`PolicyConditionError "Unsupported method"` when none applies (grouped
here by receiver type, which dispatches identically). -/
def evalMethod (obj : Value) (m : String) (args : List Value) :
    Except EvalError Value :=
  match obj with
  | .null =>
    if m == "startswith" || m == "endswith" || m == "contains" then
      .ok (.bool false)
    else .ok (.str "")
  | .str s =>
    if m == "startswith" then
      match args.headD (.str "") with
      | .str p => .ok (.bool (strStartsWith s p))
      | _ => .error (.pyExc "startswith first arg must be str")
    else if m == "endswith" then
      match args.headD (.str "") with
      | .str p => .ok (.bool (strEndsWith s p))
      | _ => .error (.pyExc "endswith first arg must be str")
    else if m == "contains" then
      match args.headD (.str "") with
      | .str p => .ok (.bool (strContainsSubstr s p))
      | _ => .error (.pyExc "in <string> requires string as left operand")
    else if m == "lower" then .ok (.str (strToLower s))
    else if m == "upper" then .ok (.str (strToUpper s))
    else .error (.condErr ("Unsupported method: " ++ m))
  | .dict es =>
    if m == "get" then
      let dflt := (args.get? 1).getD (.str "")
      match args.headD (.str "") with
      | .str k => .ok ((dlookup es k).getD dflt)
      | .list _ => .error (.pyExc "unhashable type")
      | .dict _ => .error (.pyExc "unhashable type")
      | _ => .ok dflt
    else if m == "keys" then .ok (.list (es.map (fun p => .str p.1)))
    else if m == "values" then .ok (.list (es.map (fun p => p.2)))
    else .error (.condErr ("Unsupported method: " ++ m))
  | _ => .error (.condErr ("Unsupported method: " ++ m))

/-- The built-in-function half of `_eval_call` (`node.func` an
`ast.Name`), on the already-evaluated arguments, in source order; unknown
names raise `PolicyConditionError "Unknown function"`. -/
def evalBuiltin (f : String) (args : List Value) (ctx : Ctx) :
    Except EvalError Value :=
  if f == "contains_pii" then
    let target := args.headD (dgetD ctx "parameters" (.dict []))
    match target with
    | .dict es => .ok (.bool (containsPii es))
    | _ => .ok (.bool (containsPii []))
  else if f == "is_sensitive_path" then
    .ok (.bool (isSensitivePath (match args.head? with
                                 | some v => pyStr v
                                 | none => "")))
  else if f == "rate_last_5min" then
    .ok (dgetD ctx "_rate_last_5min" (.num 0))
  else if f == "len" then
    match args.head? with
    | some v => do pure (.num (← pyLen v))
    | none => .ok (.num 0)
  else if f == "str" then
    .ok (.str (match args.head? with | some v => pyStr v | none => ""))
  else if f == "int" then
    match args.head? with
    | some v => do pure (.num (← pyInt v))
    | none => .ok (.num 0)
  else if f == "bool" then
    .ok (.bool (match args.head? with | some v => truthy v | none => false))
  else if f == "isinstance" then
    match args with
    | x :: t :: _ => .ok (.bool (pyIsinstance x t))
    | _ => .ok (.bool false)
  else .error (.condErr ("Unknown function: " ++ f))

mutual
/-- `_eval_node`, the recursive interpreter over the parsed tree. -/
def evalNode : PyExpr → Ctx → Except EvalError Value
  | .boolAnd vals, ctx => do pure (.bool (← evalAll vals ctx))
  | .boolOr vals, ctx => do pure (.bool (← evalAny vals ctx))
  | .unaryNot operand, ctx => do
    pure (.bool !(truthy (← evalNode operand ctx)))
  | .compare left rest, ctx => do
    evalCompareRest (← evalNode left ctx) rest ctx
  | .const v, _ => .ok v
  | .name n, ctx => .ok (resolveName n ctx)
  | .attribute value attr, ctx => do
    match (← evalNode value ctx) with
    | .dict es => pure ((dlookup es attr).getD (.str ""))
    | .null => pure (.str "")
    | _ => pure (.str "")
    -- non-dict, non-None: `getattr(value, attr, "")`.  On the JSON leaf
    -- values conditions read, the attribute does not exist and the `""`
    -- default is returned; method objects on `str` are not modelled.
  | .callName f args, ctx => do evalBuiltin f (← evalArgs args ctx) ctx
  | .callMethod objE m args, ctx => do
    let obj ← evalNode objE ctx
    let args ← evalArgs args ctx
    evalMethod obj m args
  | .callOther, _ => .error (.condErr "Unsupported function call")
  | .listLit elts, ctx => do pure (.list (← evalArgs elts ctx))
  | .tupleLit elts, ctx => do pure (.list (← evalArgs elts ctx))
  | .subscript value slc, ctx => do
    pure (pySubscript (← evalNode value ctx) (← evalNode slc ctx))
  | .ifExp test body orelse, ctx => do
    if truthy (← evalNode test ctx) then evalNode body ctx
    else evalNode orelse ctx
  | .setLit _, _ => .error (.condErr "Unsupported expression node: Set")
  | .dictLit _, _ => .error (.condErr "Unsupported expression node: Dict")
  | .comp kind, _ =>
    .error (.condErr ("Unsupported expression node: " ++ kind))
  | .lambdaExp, _ => .error (.condErr "Unsupported expression node: Lambda")
  | .binOp _ _, _ => .error (.condErr "Unsupported expression node: BinOp")
  | .unaryOther _ _, _ =>
    .error (.condErr "Unsupported expression node: UnaryOp")

/-- `all(_eval_node(v, ctx) for v in node.values)` (short-circuit). -/
def evalAll : List PyExpr → Ctx → Except EvalError Bool
  | [], _ => .ok true
  | v :: rest, ctx => do
    if truthy (← evalNode v ctx) then evalAll rest ctx else pure false

/-- `any(_eval_node(v, ctx) for v in node.values)` (short-circuit). -/
def evalAny : List PyExpr → Ctx → Except EvalError Bool
  | [], _ => .ok false
  | v :: rest, ctx => do
    if truthy (← evalNode v ctx) then pure true else evalAny rest ctx

/-- The `ast.Compare` loop: `if not op_func(left, right): return False`,
with `left` re-bound to `right` between links; `True` after the loop. -/
def evalCompareRest :
    Value → List (CmpOp × PyExpr) → Ctx → Except EvalError Value
  | _, [], _ => .ok (.bool true)
  | left, (op, comp) :: rest, ctx => do
    let right ← evalNode comp ctx
    if ← applyCmp op left right then evalCompareRest right rest ctx
    else pure (.bool false)

/-- Left-to-right evaluation of argument/element lists. -/
def evalArgs : List PyExpr → Ctx → Except EvalError (List Value)
  | [], _ => .ok []
  | a :: rest, ctx => do
    let v ← evalNode a ctx
    pure (v :: (← evalArgs rest ctx))
end

/-- `bool(result)` with the `_evaluator` wrapper's error discipline: a
`PolicyConditionError` raised inside `_eval_node` is re-raised as-is, and
every other exception is wrapped as
`PolicyConditionError("Condition evaluation error: ...")` — so every
failure surfaces to the policy engine as a `PolicyConditionError`, whose
message is the `String` in the error case here. -/
def runCondition (tree : PyExpr) (ctx : Ctx) : Except String Bool :=
  match evalNode tree ctx with
  | .ok v => .ok (truthy v)
  | .error (.condErr m) => .error m
  | .error (.pyExc m) => .error ("Condition evaluation error: " ++ m)

/-- The outcome of `ast.parse(source, mode="eval")`, the host parser
`_compile_condition` calls first: `syntaxError` for sources that are not
valid Python expressions (statements such as `def`, `import`, or an
attribute assignment), `parsed` with the expression tree otherwise. -/
inductive ParseOutcome where
  | syntaxError (source : String)
  | parsed (tree : PyExpr)

/-- Errors raised while loading a policy (`PolicyParseError`). -/
inductive PolicyLoadError where
  | parseError (msg : String)

/-- `_compile_condition`: a `SyntaxError` from the parser becomes
`PolicyParseError`; otherwise the evaluator closure is returned with no
inspection of the tree whatsoever — no node is rejected at compile time. -/
def compileCondition (p : ParseOutcome) :
    Except PolicyLoadError (Ctx → Except String Bool) :=
  match p with
  | .syntaxError src =>
    .error (.parseError ("Invalid condition syntax: " ++ src))
  | .parsed tree => .ok (runCondition tree)

/-- The claim's "rejected constructs" that are nonetheless valid Python
expressions, so they reach `_eval_node` rather than the parser: set and
dict literals, comprehensions/generator expressions, and `lambda`
function definitions. -/
def rejectedConstruct : PyExpr → Bool
  | .setLit _ => true
  | .dictLit _ => true
  | .comp _ => true
  | .lambdaExp => true
  | _ => false

/-! ## Evaluation pipeline — `ActionGuard._worst_verdict` (C3) -/

/-- `ActionGuard._worst_verdict`: `min(results, key=priority)` — the
first result of minimal severity; an empty list yields a synthetic ALLOW
result from the pipeline.  Python's `min` keeps the earliest element on
ties, i.e. replaces the running best only on strictly smaller key. -/
def worstVerdict (results : List EvaluatorResult) : EvaluatorResult :=
  match results with
  | [] =>
    { verdict := .ALLOW, reason := "No evaluators ran",
      evaluatorName := "pipeline" }
  | r :: rs =>
    rs.foldl
      (fun best x =>
        if verdictSeverity x.verdict < verdictSeverity best.verdict then x
        else best)
      r

/-! ## Rate limiter (`evaluators/rate_limiter.py`, C5) -/

/-- `RateLimit` — `(max_calls, period_seconds)`. -/
structure RateLimit where
  maxCalls : Nat
  periodSeconds : Nat

/-- The configuration slice of `RateLimiter.__init__` (parsed limits). -/
structure RateLimiterCfg where
  defaultLimit : RateLimit
  perToolLimits : List (String × RateLimit) := []
  perAgentLimits : List (String × RateLimit) := []

/-- The mutable window state: timestamp lists per `(agent_id, tool)` key
and per agent (`defaultdict(_SlidingWindow)` — a missing key reads as an
empty window).  Timestamps are `time.monotonic()` values. -/
structure RateLimiterState where
  windows : List ((String × String) × List ℚ) := []
  agentWindows : List (String × List ℚ) := []

/-- Window lookup for a `(agent, tool)` key. -/
def toolWindow (st : RateLimiterState) (key : String × String) : List ℚ :=
  ((st.windows.find? (fun p => p.1 = key)).map (·.2)).getD []

/-- Window lookup for an agent. -/
def agentWindow (st : RateLimiterState) (agentId : String) : List ℚ :=
  dgetD st.agentWindows agentId []

/-- `_SlidingWindow.count_in_window`'s pruning step: drop timestamps not
strictly newer than `now − window`. -/
def pruneWindow (ts : List ℚ) (windowSeconds : Nat) (now : ℚ) : List ℚ :=
  ts.filter (fun t => t > now - (windowSeconds : ℚ))

/-- `rstrip("*")`, used by the per-tool prefix match. -/
def rstripStar (s : String) : String :=
  String.mk (s.toList.reverse.dropWhile (fun c => c = '*')).reverse

/-- `RateLimiter._get_limit_for_tool`: exact match, then the first entry
whose pattern (with trailing `*` stripped) prefixes the tool name, then
the default. -/
def getLimitForTool (cfg : RateLimiterCfg) (toolName : String) : RateLimit :=
  match dlookup cfg.perToolLimits toolName with
  | some l => l
  | none =>
    match cfg.perToolLimits.find?
        (fun p => strStartsWith toolName (rstripStar p.1)) with
    | some p => p.2
    | none => cfg.defaultLimit

/-- `RateLimiter._get_limit_for_agent`. -/
def getLimitForAgent (cfg : RateLimiterCfg) (agentId : String) : RateLimit :=
  dgetD cfg.perAgentLimits agentId cfg.defaultLimit

/-- Store a `(agent, tool)` window back (a `_SlidingWindow`'s timestamp
list after mutation). -/
def setToolWindow (st : RateLimiterState) (key : String × String)
    (ts : List ℚ) : RateLimiterState :=
  { st with windows := (key, ts) :: st.windows.filter (fun p => p.1 ≠ key) }

/-- Store an agent window back. -/
def setAgentWindow (st : RateLimiterState) (agentId : String)
    (ts : List ℚ) : RateLimiterState :=
  { st with
    agentWindows :=
      (agentId, ts) :: st.agentWindows.filter (fun p => p.1 ≠ agentId) }

/-- `RateLimiter.record_action`: `add()` a timestamp under both the
`(agent, tool)` key and the agent key. -/
def recordAction (st : RateLimiterState) (agentId toolName : String)
    (now : ℚ) : RateLimiterState :=
  let key := (agentId, toolName)
  let st := setToolWindow st key (toolWindow st key ++ [now])
  setAgentWindow st agentId (agentWindow st agentId ++ [now])

/-- `RateLimiter.evaluate`: count the `(agent, tool)` window against the
per-tool limit (BLOCK with tool metadata if `count ≥ max_calls`), then
the agent window against the per-agent limit (BLOCK with agent metadata),
else `record_action` and ALLOW.  `count_in_window` prunes the stored
timestamp list as a side effect, reflected in the returned state. -/
def rateLimiterEvaluate (cfg : RateLimiterCfg) (st : RateLimiterState)
    (intent : ActionIntent) (now : ℚ) :
    EvaluatorResult × RateLimiterState :=
  let agentId := intent.agentId
  let toolName := intent.actionType
  let toolLimit := getLimitForTool cfg toolName
  let key := (agentId, toolName)
  let prunedTool := pruneWindow (toolWindow st key) toolLimit.periodSeconds now
  let st1 := setToolWindow st key prunedTool
  let toolCount := prunedTool.length
  if toolCount ≥ toolLimit.maxCalls then
    ({ verdict := .BLOCK
       reason := "Rate limit exceeded for " ++ toolName ++ ": "
         ++ toString toolCount ++ "/" ++ toString toolLimit.maxCalls
         ++ " in " ++ toString toolLimit.periodSeconds ++ "s"
       confidence := 1
       evaluatorName := "rate_limiter"
       metadata := [("tool_name", .str toolName),
                    ("current_count", .num toolCount),
                    ("limit", .num toolLimit.maxCalls),
                    ("period_seconds", .num toolLimit.periodSeconds)] },
     st1)
  else
    let agentLimit := getLimitForAgent cfg agentId
    let prunedAgent :=
      pruneWindow (agentWindow st agentId) agentLimit.periodSeconds now
    let st2 := setAgentWindow st1 agentId prunedAgent
    let agentCount := prunedAgent.length
    if agentCount ≥ agentLimit.maxCalls then
      ({ verdict := .BLOCK
         reason := "Agent rate limit exceeded for " ++ agentId ++ ": "
           ++ toString agentCount ++ "/" ++ toString agentLimit.maxCalls
           ++ " in " ++ toString agentLimit.periodSeconds ++ "s"
         confidence := 1
         evaluatorName := "rate_limiter"
         metadata := [("agent_id", .str agentId),
                      ("current_count", .num agentCount),
                      ("limit", .num agentLimit.maxCalls),
                      ("period_seconds", .num agentLimit.periodSeconds)] },
       st2)
    else
      ({ verdict := .ALLOW
         reason := "Rate limits OK"
         confidence := 1
         evaluatorName := "rate_limiter" },
       recordAction st2 agentId toolName now)

/-! ## Global budget manager (`multiagent/global_budgeter.py`, C6/C7) -/

/-- The mutable ledgers of `GlobalBudgetManager`: spend by agent, spend
by task, contributing agents by task (`defaultdict`s — missing keys read
as 0 / empty), and per-action cost records
`action_id ↦ (task_id, agent_id, cost)`. -/
structure BudgetState where
  agentSpend : List (String × ℚ) := []
  taskSpend : List (String × ℚ) := []
  taskAgents : List (String × List String) := []
  actionCosts : List (String × (String × String × ℚ)) := []

/-- `GlobalBudgetManager.record_cost`: add `cost` to the agent ledger
and, when a task is present, to the task ledger, also noting the agent as
a contributor to the task. -/
def GlobalBudgetManager.record_cost (st : BudgetState) (agentId : String)
    (taskId : Option String) (cost : ℚ) : BudgetState :=
  let st :=
    { st with
      agentSpend :=
        dset st.agentSpend agentId (dgetD st.agentSpend agentId 0 + cost) }
  match taskId with
  | none => st
  | some t =>
    { st with
      taskSpend := dset st.taskSpend t (dgetD st.taskSpend t 0 + cost)
      taskAgents :=
        dset st.taskAgents t
          (let agents := dgetD st.taskAgents t []
           if agentId ∈ agents then agents else agents ++ [agentId]) }

/-- `GlobalBudgetManager.register_action`: store the per-action cost
record that enables recrediting. -/
def GlobalBudgetManager.register_action (st : BudgetState)
    (taskId agentId actionId : String) (cost : ℚ) : BudgetState :=
  { st with actionCosts := dset st.actionCosts actionId (taskId, agentId, cost) }

/-- `GlobalBudgetManager.recredit`: pop the action's cost record; if none
return 0 and leave the ledgers alone; otherwise subtract the recorded
cost from the `agent_id`/`task_id` ledgers given as arguments, clamped at
zero, and return the recredited amount. -/
def GlobalBudgetManager.recredit (st : BudgetState)
    (taskId agentId actionId : String) : ℚ × BudgetState :=
  match dpop st.actionCosts actionId with
  | (none, _) => (0, st)
  | (some (_, _, cost), remaining) =>
    (cost,
     { st with
       actionCosts := remaining
       agentSpend :=
         dset st.agentSpend agentId
           (max 0 (dgetD st.agentSpend agentId 0 - cost))
       taskSpend :=
         dset st.taskSpend taskId
           (max 0 (dgetD st.taskSpend taskId 0 - cost)) })

/-! ## Cost estimator spend ledger (`evaluators/cost_estimator.py`, C7) -/

/-- The `CostEstimator`'s own spend maps (`_agent_spend`, `_task_spend`),
distinct objects from the global budget manager's ledgers. -/
structure CostEstimatorState where
  agentSpend : List (String × ℚ) := []
  taskSpend : List (String × ℚ) := []

/-- `CostEstimator.record_cost`. -/
def CostEstimator.record_cost (st : CostEstimatorState) (agentId : String)
    (taskId : Option String) (cost : ℚ) : CostEstimatorState :=
  let st :=
    { st with
      agentSpend :=
        dset st.agentSpend agentId (dgetD st.agentSpend agentId 0 + cost) }
  match taskId with
  | none => st
  | some t =>
    { st with taskSpend := dset st.taskSpend t (dgetD st.taskSpend t 0 + cost) }

/-- The spend-tracking state touched by `ActionGuard._post_execution`:
the global budgeter's ledgers, the cost estimator's ledgers, and the
metrics collector's cumulative cost counter. -/
structure GuardCostState where
  budgeter : BudgetState := {}
  estimator : CostEstimatorState := {}
  metricsCost : ℚ := 0

/-- The cost-recording block of `ActionGuard._post_execution`: when
`intent.estimated_cost > 0` it adds the cost to the metrics counter,
calls `record_cost` on the global budgeter AND — when the cost estimator
evaluator was configured (`hasattr(self, "_cost_estimator")`) — on the
cost estimator as well. -/
def postExecutionCost (st : GuardCostState) (intent : ActionIntent)
    (hasCostEstimator : Bool) : GuardCostState :=
  if intent.estimatedCost > 0 then
    { metricsCost := st.metricsCost + intent.estimatedCost
      budgeter :=
        GlobalBudgetManager.record_cost st.budgeter intent.agentId
          intent.taskId intent.estimatedCost
      estimator :=
        if hasCostEstimator then
          CostEstimator.record_cost st.estimator intent.agentId
            intent.taskId intent.estimatedCost
        else st.estimator }
  else st

/-! ## Trust ledger (`multiagent/trust_ledger.py`, C9) -/

/-- `AgentProfile`. -/
structure AgentProfile where
  agentId : String
  trustLevel : TrustLevel
  trustScore : ℚ := 1/2
  canDelegateTo : List String := []
  maxActionsPerRun : Nat := 100
  actionCount : Nat := 0
  errorCount : Nat := 0
  violationCount : Nat := 0

/-- `TrustLedger` state and configuration. -/
structure TrustLedger where
  agents : List (String × AgentProfile) := []
  blockUnknown : Bool := true
  defaultTrustLevel : TrustLevel := .UNKNOWN

/-- `AgentNotRegisteredError`. -/
inductive AgentNotRegistered where
  | err (agentId : String)

/-- `TrustLedger.get`: the stored profile if registered; otherwise raise
when `block_unknown`, else build a fresh default profile for the unknown
agent.  The fresh profile is a new object each call and is never stored
in `_agents`. -/
def TrustLedger.get (tl : TrustLedger) (agentId : String) :
    Except AgentNotRegistered AgentProfile :=
  match dlookup tl.agents agentId with
  | some p => .ok p
  | none =>
    if tl.blockUnknown then .error (.err agentId)
    else
      .ok { agentId := agentId
            trustLevel := tl.defaultTrustLevel
            trustScore := tl.defaultTrustLevel.score }

/-- `TrustLedger.record_action` mutates the profile object returned by
`get`: for a registered agent that object lives in `_agents`, so the
ledger changes; for an unknown agent (with `block_unknown` false) the
mutation hits the fresh throwaway profile and the ledger is unchanged. -/
def TrustLedger.record_action (tl : TrustLedger) (agentId : String)
    (success : Bool) : Except AgentNotRegistered TrustLedger :=
  match dlookup tl.agents agentId with
  | some p =>
    .ok { tl with
          agents :=
            dset tl.agents agentId
              { p with
                actionCount := p.actionCount + 1
                errorCount := p.errorCount + (if success then 0 else 1) } }
  | none => if tl.blockUnknown then .error (.err agentId) else .ok tl

/-- `TrustLedger.record_violation`: bump the violation count and subtract
0.05 from the trust score, clamped at 0 (same throwaway-object behaviour
for unknown agents as `record_action`). -/
def TrustLedger.record_violation (tl : TrustLedger) (agentId : String) :
    Except AgentNotRegistered TrustLedger :=
  match dlookup tl.agents agentId with
  | some p =>
    .ok { tl with
          agents :=
            dset tl.agents agentId
              { p with
                violationCount := p.violationCount + 1
                trustScore := max 0 (p.trustScore - 5/100) } }
  | none => if tl.blockUnknown then .error (.err agentId) else .ok tl

/-- `TrustLedger.update_trust_score`: clamp to `[0, 1]` and return the
new score (computed on the throwaway profile for unknown agents). -/
def TrustLedger.update_trust_score (tl : TrustLedger) (agentId : String)
    (delta : ℚ) : Except AgentNotRegistered (ℚ × TrustLedger) :=
  match dlookup tl.agents agentId with
  | some p =>
    let newScore := max 0 (min 1 (p.trustScore + delta))
    .ok (newScore,
         { tl with agents := dset tl.agents agentId { p with trustScore := newScore } })
  | none =>
    if tl.blockUnknown then .error (.err agentId)
    else .ok (max 0 (min 1 (tl.defaultTrustLevel.score + delta)), tl)

/-! ## Human gate (`evaluators/human_gate.py`, C10) -/

/-- A pluggable approval callback: `Except` models a callback that
raises. -/
abbrev ApprovalCallback := ActionIntent → Except String Bool

/-- `_default_approval_callback`: auto-approve (with a warning log). -/
def defaultApprovalCallback : ApprovalCallback := fun _ => .ok true

/-- `HumanGate.__init__`: `approval_callback or _default_approval_callback`,
`require_for_risk_levels or [RiskLevel.CRITICAL]`,
`require_for_action_types or []`. -/
structure HumanGate where
  callback : ApprovalCallback
  requireRiskLevels : List RiskLevel
  requireActionTypes : List String
  enabled : Bool

/-- The constructor's defaulting logic. -/
def mkHumanGate (approvalCallback : Option ApprovalCallback := none)
    (requireForRiskLevels : Option (List RiskLevel) := none)
    (requireForActionTypes : Option (List String) := none)
    (enabled : Bool := false) : HumanGate :=
  { callback := approvalCallback.getD defaultApprovalCallback
    requireRiskLevels := requireForRiskLevels.getD [RiskLevel.CRITICAL]
    requireActionTypes := requireForActionTypes.getD []
    enabled := enabled }

/-- `HumanGate._requires_approval`. -/
def HumanGate.requiresApproval (hg : HumanGate) (intent : ActionIntent) :
    Bool :=
  intent.riskLevel ∈ hg.requireRiskLevels
    || intent.actionType ∈ hg.requireActionTypes

/-- `HumanGate.evaluate`: ALLOW when approval is not required; otherwise
call the callback — an exception yields BLOCK, `True` ALLOW, `False`
BLOCK. -/
def HumanGate.evaluate (hg : HumanGate) (intent : ActionIntent) :
    EvaluatorResult :=
  if !hg.requiresApproval intent then
    { verdict := .ALLOW
      reason := "Human approval not required"
      confidence := 1
      evaluatorName := "human_gate" }
  else
    match hg.callback intent with
    | .error exc =>
      { verdict := .BLOCK
        reason := "Human approval callback failed: " ++ exc
        confidence := 1
        evaluatorName := "human_gate" }
    | .ok true =>
      { verdict := .ALLOW
        reason := "Human approved this action"
        confidence := 1
        evaluatorName := "human_gate" }
    | .ok false =>
      { verdict := .BLOCK
        reason := "Human denied this action"
        confidence := 1
        evaluatorName := "human_gate" }

/-! ## Rollback coordinator (`plyra_guard-0.1.0/.../rollback/coordinator.py`, C4) -/

/-- `Snapshot` — `state` is opaque to the coordinator. -/
structure Snapshot where
  actionId : String
  actionType : String
  state : List (String × Value) := []

/-- A rollback handler as the coordinator sees it: `can_handle` (in the
source, a glob match of the handler's `action_types` —  handlers are
caller-supplied objects, so the predicate is carried as a field) and
`restore`, which may raise (`Except.error`) or report failure
(`.ok false`). -/
structure RollbackHandler where
  canHandle : String → Bool
  restore : Snapshot → Except String Bool

/-- `RollbackRegistry`: exact-type custom handlers take precedence, then
the first pattern-matching handler of the registration list. -/
structure RollbackRegistry where
  handlers : List RollbackHandler := []
  customHandlers : List (String × RollbackHandler) := []

/-- `RollbackRegistry.has_handler`. -/
def RollbackRegistry.has_handler (reg : RollbackRegistry)
    (actionType : String) : Bool :=
  (dlookup reg.customHandlers actionType).isSome
    || reg.handlers.any (fun h => h.canHandle actionType)

/-- `RollbackRegistry.get_handler` (the coordinator only calls it after
`has_handler`, so the not-found branch is `none` here rather than the
source's `RollbackHandlerNotFoundError`). -/
def RollbackRegistry.get_handler (reg : RollbackRegistry)
    (actionType : String) : Option RollbackHandler :=
  match dlookup reg.customHandlers actionType with
  | some h => some h
  | none => reg.handlers.find? (fun h => h.canHandle actionType)

/-- The rollback coordinator's state: the snapshot manager's stored
snapshots keyed by `action_id` (`SnapshotManager.get` returns `None` when
the id is in neither the LRU nor the backing store, embedded as a `none`
lookup), the handler registry, and the coordinator's in-memory
`_action_log` of executed-action audit entries. -/
structure CoordinatorState where
  snapshots : List (String × Snapshot) := []
  registry : RollbackRegistry := {}
  actionLog : List AuditEntry := []

/-- `RollbackCoordinator.rollback_action`: `False` when the snapshot is
missing, when no handler is registered for the snapshot's action type,
when `handler.restore` raises, or when it returns `False`; when `restore`
returns `True`, remove the snapshot and return `True`.  The coordinator's
`_action_log` is never touched by this method (the `rolled_back` flag is
set by `rollback_last`/`rollback_task` after a successful call). -/
def RollbackCoordinator.rollback_action (st : CoordinatorState)
    (actionId : String) : Bool × CoordinatorState :=
  match dlookup st.snapshots actionId with
  | none => (false, st)
  | some snapshot =>
    if st.registry.has_handler snapshot.actionType then
      match st.registry.get_handler snapshot.actionType with
      | none => (false, st)
      | some handler =>
        match handler.restore snapshot with
        | .error _ => (false, st)
        | .ok false => (false, st)
        | .ok true =>
          (true,
           { st with
             snapshots := st.snapshots.filter (fun p => p.1 ≠ actionId) })
    else (false, st)

/-! ## Helper lemmas -/

theorem dgetD_dset_same {α : Type} (l : List (String × α)) (k : String)
    (v d : α) : dgetD (dset l k v) k d = v := by
  simp [dgetD, dset, dlookup]

theorem dlookup_filter_ne {α : Type} (l : List (String × α)) (k : String) :
    dlookup (l.filter (fun p => p.1 ≠ k)) k = none := by
  induction l with
  | nil => rfl
  | cons p rest ih =>
    obtain ⟨k', v⟩ := p
    rw [List.filter_cons]
    by_cases h : k' = k
    · simpa [h] using ih
    · simpa [h, dlookup] using ih

theorem verdictSeverity_injective (v w : Verdict) :
    verdictSeverity v = verdictSeverity w → v = w := by
  cases v <;> cases w <;> simp [verdictSeverity]

/-! ## Claim theorems -/

/-- **C1** (code_bug evaluation): the failing input is an intent carrying
`parameters = {"password": "hunter2", "url": ...}` that a blocking
verdict stops before execution.  `ActionGuard._record_blocked` writes an
audit entry whose `password` value is still `"hunter2"` — not the
`"***REDACTED***"` the claim requires of every exported entry — while the
execution gate's `_build_audit` on the very same intent would have
redacted it.  `AuditLog.write` forwards the blocked entry to every
exporter unchanged. -/
theorem c1_blocked_audit_entry_keeps_sensitive_values :
    dlookup (recordBlocked
        { actionId := "a-1", actionType := "http.post", agentId := "agent-1",
          parameters := [("password", Value.str "hunter2"),
                         ("url", Value.str "https://example.com")] }
        { verdict := .BLOCK, reason := "blocked by policy",
          evaluatorName := "policy_engine" }
        0 none).parameters "password" = some (Value.str "hunter2")
    ∧ dlookup (recordBlocked
        { actionId := "a-1", actionType := "http.post", agentId := "agent-1",
          parameters := [("password", Value.str "hunter2"),
                         ("url", Value.str "https://example.com")] }
        { verdict := .BLOCK, reason := "blocked by policy",
          evaluatorName := "policy_engine" }
        0 none).parameters "password" ≠ some (Value.str "***REDACTED***")
    ∧ dlookup (buildAudit
        { actionId := "a-1", actionType := "http.post", agentId := "agent-1",
          parameters := [("password", Value.str "hunter2"),
                         ("url", Value.str "https://example.com")] }
        .ALLOW 0 none 0 none).parameters "password"
        = some (Value.str "***REDACTED***") := by
  refine ⟨rfl, by simp [recordBlocked, dlookup], ?_⟩
  have hpw : strToLower "password" ∈ sensitiveKeys := by decide
  simp [buildAudit, sanitizeParams, dlookup, hpw]

/-- **C2** (counterexample): the source string `"{1, 2, 3}"` contains a
rejected construct (a set literal), yet it is a syntactically valid
Python expression, so `ast.parse` succeeds and `_compile_condition`
returns an evaluator without raising — no `PolicyParseError` at compile
time.  The rejection only surfaces on evaluation, as a
`PolicyConditionError` (exactly what the repo's own test
`test_unsupported_expression_raises_condition_error` asserts). -/
theorem c2_set_literal_not_rejected_at_compile :
    rejectedConstruct
        (PyExpr.setLit [.const (.num 1), .const (.num 2), .const (.num 3)])
      = true
    ∧ (match compileCondition (.parsed
          (PyExpr.setLit [.const (.num 1), .const (.num 2), .const (.num 3)]))
        with
        | .ok _ => true
        | .error _ => false) = true
    ∧ runCondition
        (PyExpr.setLit [.const (.num 1), .const (.num 2), .const (.num 3)]) []
        = .error "Unsupported expression node: Set" := by
  exact ⟨rfl, rfl, rfl⟩

/-- **C2** (amended): only sources that fail Python's expression parser
(function definitions via `def`, attribute assignments, `import`
statements) raise `PolicyParseError` at compile time; rejected constructs
that parse as expressions — set and dict literals, comprehensions,
`lambda` — compile into an evaluator untouched and raise
`PolicyConditionError` at evaluation time, the same error class used for
evaluation failures inside accepted nodes. -/
theorem c2_compile_time_rejection_amended (src : String) (t : PyExpr)
    (ctx : Ctx) :
    compileCondition (.syntaxError src)
        = .error (.parseError ("Invalid condition syntax: " ++ src))
    ∧ compileCondition (.parsed t) = .ok (runCondition t)
    ∧ (rejectedConstruct t = true → ∃ m, runCondition t ctx = .error m) := by
  refine ⟨rfl, rfl, ?_⟩
  intro h
  cases t <;> simp [rejectedConstruct] at h <;> exact ⟨_, rfl⟩

/-- **C2** witness for the amended theorem's hypothesis, at the dict
literal `{'a': 1}`. -/
theorem c2_amended_witness :
    rejectedConstruct (PyExpr.dictLit [(.const (.str "a"), .const (.num 1))])
        = true
    ∧ ∃ m, runCondition
        (PyExpr.dictLit [(.const (.str "a"), .const (.num 1))]) []
        = .error m :=
  ⟨rfl,
   (c2_compile_time_rejection_amended "x"
      (PyExpr.dictLit [(.const (.str "a"), .const (.num 1))]) []).2.2 rfl⟩

/-- **C8** (counterexample): the claim's case-insensitive check accepts
`"/ETC/passwd"`, but the source's `startswith` comparison is
case-sensitive and rejects it. -/
theorem c8_sensitive_path_not_case_insensitive :
    specSensitivePathCI "/ETC/passwd" = true
    ∧ isSensitivePath "/ETC/passwd" = false := by
  exact ⟨rfl, rfl⟩

/-- **C8** (amended): the sensitive-path check normalizes every backslash
to a forward slash (in the input and in each listed prefix) and returns
true exactly when some listed prefix matches CASE-SENSITIVELY; the
Windows prefix still matches through normalization. -/
theorem c8_sensitive_path_amended (p : String) :
    (isSensitivePath p = true ↔
      ∃ sp ∈ sensitivePaths,
        strStartsWith (normalizeSlashes p) (normalizeSlashes sp) = true)
    ∧ isSensitivePath "C:\\Windows\\System32\\drivers" = true
    ∧ isSensitivePath "/etc/passwd" = true := by
  refine ⟨?_, rfl, rfl⟩
  simp [isSensitivePath, List.any_eq_true]

/-- The fold inside `worstVerdict` returns the accumulator or a list
element, is no less severe than the accumulator, and is no less severe
than every list element. -/
theorem worstVerdict_foldl_spec (rs : List EvaluatorResult)
    (acc : EvaluatorResult) :
    (rs.foldl
        (fun best x =>
          if verdictSeverity x.verdict < verdictSeverity best.verdict then x
          else best)
        acc = acc
      ∨ rs.foldl
          (fun best x =>
            if verdictSeverity x.verdict < verdictSeverity best.verdict
            then x else best)
          acc ∈ rs)
    ∧ verdictSeverity
        (rs.foldl
          (fun best x =>
            if verdictSeverity x.verdict < verdictSeverity best.verdict
            then x else best)
          acc).verdict
        ≤ verdictSeverity acc.verdict
    ∧ ∀ r ∈ rs,
        verdictSeverity
          (rs.foldl
            (fun best x =>
              if verdictSeverity x.verdict < verdictSeverity best.verdict
              then x else best)
            acc).verdict
          ≤ verdictSeverity r.verdict := by
  induction rs generalizing acc with
  | nil => simp
  | cons x rest ih =>
    simp only [List.foldl_cons]
    by_cases h : verdictSeverity x.verdict < verdictSeverity acc.verdict
    · rw [if_pos h]
      obtain ⟨hmem, hacc, hall⟩ := ih x
      refine ⟨?_, ?_, ?_⟩
      · rcases hmem with h1 | h1
        · exact Or.inr (by rw [h1]; exact List.mem_cons_self x rest)
        · exact Or.inr (List.mem_cons_of_mem x h1)
      · exact le_of_lt (lt_of_le_of_lt hacc h)
      · intro r hr
        rcases List.mem_cons.mp hr with h1 | h1
        · rw [h1]; exact hacc
        · exact hall r h1
    · rw [if_neg h]
      obtain ⟨hmem, hacc, hall⟩ := ih acc
      refine ⟨?_, hacc, ?_⟩
      · rcases hmem with h1 | h1
        · exact Or.inl h1
        · exact Or.inr (List.mem_cons_of_mem x h1)
      · intro r hr
        rcases List.mem_cons.mp hr with h1 | h1
        · rw [h1]
          exact le_trans hacc (Nat.le_of_not_lt h)
        · exact hall r h1

/-- **C3** (confirmed): for a non-empty result list the pipeline's final
verdict is one of the collected verdicts and is weakly more severe than
every collected verdict (severity order BLOCK < ESCALATE < DEFER < WARN <
ALLOW, Python's `min` keeping the first occurrence on ties); in
particular, over two results the final verdict is order-independent and
equals the more severe of the two. -/
theorem c3_worst_verdict_most_severe (results : List EvaluatorResult)
    (a b : EvaluatorResult) (h : results ≠ []) :
    ((worstVerdict results).verdict ∈ results.map (fun r => r.verdict)
      ∧ ∀ r ∈ results,
          verdictSeverity (worstVerdict results).verdict
            ≤ verdictSeverity r.verdict)
    ∧ (worstVerdict [a, b]).verdict = (worstVerdict [b, a]).verdict
    ∧ (worstVerdict [a, b]).verdict =
        (if verdictSeverity a.verdict ≤ verdictSeverity b.verdict
         then a.verdict else b.verdict) := by
  refine ⟨?_, ?_, ?_⟩
  · match results, h with
    | r :: rs, _ =>
      obtain ⟨hmem, hacc, hall⟩ := worstVerdict_foldl_spec rs r
      constructor
      · rcases hmem with h1 | h1
        · rw [worstVerdict, h1]
          exact List.mem_map_of_mem _ (List.mem_cons_self r rs)
        · exact List.mem_map_of_mem _
            (List.mem_cons_of_mem r (by rw [worstVerdict]; exact h1))
      · intro x hx
        rcases List.mem_cons.mp hx with h1 | h1
        · rw [h1, worstVerdict]; exact hacc
        · rw [worstVerdict]; exact hall x h1
  · show (worstVerdict [a, b]).verdict = (worstVerdict [b, a]).verdict
    simp only [worstVerdict, List.foldl_cons, List.foldl_nil]
    rcases Nat.lt_trichotomy (verdictSeverity a.verdict)
        (verdictSeverity b.verdict) with hlt | heq | hgt
    · rw [if_neg (Nat.not_lt.mpr (Nat.le_of_lt hlt)), if_pos hlt]
    · rw [if_neg (by omega), if_neg (by omega)]
      exact verdictSeverity_injective _ _ heq
    · rw [if_pos hgt, if_neg (Nat.not_lt.mpr (Nat.le_of_lt hgt))]
  · simp only [worstVerdict, List.foldl_cons, List.foldl_nil]
    by_cases hle : verdictSeverity a.verdict ≤ verdictSeverity b.verdict
    · rw [if_pos hle, if_neg (Nat.not_lt.mpr hle)]
    · rw [if_neg hle, if_pos (Nat.not_le.mp hle)]

/-- **C3** witness: at one BLOCK and one WARN result the final verdict is
BLOCK either way. -/
theorem c3_worst_verdict_witness :
    ([({ verdict := .WARN } : EvaluatorResult),
      ({ verdict := .BLOCK } : EvaluatorResult)] ≠ [])
    ∧ (worstVerdict [({ verdict := .WARN } : EvaluatorResult),
        ({ verdict := .BLOCK } : EvaluatorResult)]).verdict
      = (worstVerdict [({ verdict := .BLOCK } : EvaluatorResult),
          ({ verdict := .WARN } : EvaluatorResult)]).verdict := by
  have h := c3_worst_verdict_most_severe
    [({ verdict := .WARN } : EvaluatorResult),
     ({ verdict := .BLOCK } : EvaluatorResult)]
    ({ verdict := .WARN } : EvaluatorResult)
    ({ verdict := .BLOCK } : EvaluatorResult)
    (by simp)
  exact ⟨by simp, h.2.1⟩

/-- **C4** (counterexample): a concrete coordinator state with a stored
snapshot for `"a-9"`, a registered handler whose `restore` succeeds, and
an action-log audit entry for `"a-9"` with `rolled_back = false`:
`rollback_action` returns `True` and removes the snapshot, but the audit
entry's `rolled_back` field is still `false` afterwards — `rollback_action`
never marks it, contrary to the claim. -/
theorem c4_rollback_action_leaves_rolled_back_false :
    (RollbackCoordinator.rollback_action
        { snapshots := [("a-9", { actionId := "a-9",
                                  actionType := "file.write" })]
          registry := { handlers := [{ canHandle := fun _ => true,
                                       restore := fun _ => .ok true }] }
          actionLog := [{ actionId := "a-9", agentId := "agent-1",
                          actionType := "file.write",
                          verdict := .ALLOW }] }
        "a-9").1 = true
    ∧ (RollbackCoordinator.rollback_action
        { snapshots := [("a-9", { actionId := "a-9",
                                  actionType := "file.write" })]
          registry := { handlers := [{ canHandle := fun _ => true,
                                       restore := fun _ => .ok true }] }
          actionLog := [{ actionId := "a-9", agentId := "agent-1",
                          actionType := "file.write",
                          verdict := .ALLOW }] }
        "a-9").2.snapshots = []
    ∧ ((RollbackCoordinator.rollback_action
        { snapshots := [("a-9", { actionId := "a-9",
                                  actionType := "file.write" })]
          registry := { handlers := [{ canHandle := fun _ => true,
                                       restore := fun _ => .ok true }] }
          actionLog := [{ actionId := "a-9", agentId := "agent-1",
                          actionType := "file.write",
                          verdict := .ALLOW }] }
        "a-9").2.actionLog.map (fun e => e.rolledBack)) = [false] := by
  refine ⟨?_, ?_, ?_⟩ <;>
    simp [RollbackCoordinator.rollback_action, dlookup,
      RollbackRegistry.has_handler, RollbackRegistry.get_handler,
      List.find?, List.filter]

/-- **C4** (amended): `rollback_action(action_id)` returns false when no
snapshot exists, when no handler is registered for the snapshot's action
type, when the handler's restore raises any exception, and when restore
reports failure; when restore succeeds it removes the snapshot and
returns true.  It never modifies the coordinator's action log: the audit
entry's `rolled_back` flag is set by the callers `rollback_last` and
`rollback_task` after a successful rollback, not by `rollback_action`. -/
theorem c4_rollback_action_amended (st : CoordinatorState)
    (actionId : String) :
    ((RollbackCoordinator.rollback_action st actionId).2.actionLog
        = st.actionLog)
    ∧ (dlookup st.snapshots actionId = none →
        RollbackCoordinator.rollback_action st actionId = (false, st))
    ∧ (∀ snap, dlookup st.snapshots actionId = some snap →
        (st.registry.has_handler snap.actionType = false →
          RollbackCoordinator.rollback_action st actionId = (false, st))
        ∧ (∀ handler msg,
            st.registry.get_handler snap.actionType = some handler →
            handler.restore snap = .error msg →
            RollbackCoordinator.rollback_action st actionId = (false, st))
        ∧ (∀ handler,
            st.registry.get_handler snap.actionType = some handler →
            handler.restore snap = .ok false →
            RollbackCoordinator.rollback_action st actionId = (false, st))
        ∧ (∀ handler,
            st.registry.get_handler snap.actionType = some handler →
            st.registry.has_handler snap.actionType = true →
            handler.restore snap = .ok true →
            RollbackCoordinator.rollback_action st actionId =
              (true,
               { st with
                 snapshots :=
                   st.snapshots.filter (fun p => p.1 ≠ actionId) }))) := by
  refine ⟨?_, ?_, ?_⟩
  · rcases hd : dlookup st.snapshots actionId with _ | snap
    · simp [RollbackCoordinator.rollback_action, hd]
    · rcases hh : st.registry.has_handler snap.actionType with _ | _
      · simp [RollbackCoordinator.rollback_action, hd, hh]
      · rcases hg : st.registry.get_handler snap.actionType with _ | handler
        · simp [RollbackCoordinator.rollback_action, hd, hh, hg]
        · rcases hr : handler.restore snap with msg | b
          · simp [RollbackCoordinator.rollback_action, hd, hh, hg, hr]
          · rcases b with _ | _ <;>
              simp [RollbackCoordinator.rollback_action, hd, hh, hg, hr]
  · intro hnone
    simp [RollbackCoordinator.rollback_action, hnone]
  · intro snap hsnap
    refine ⟨?_, ?_, ?_, ?_⟩
    · intro hh
      simp [RollbackCoordinator.rollback_action, hsnap, hh]
    · intro handler msg hg hr
      rcases hh : st.registry.has_handler snap.actionType with _ | _ <;>
        simp [RollbackCoordinator.rollback_action, hsnap, hh, hg, hr]
    · intro handler hg hr
      rcases hh : st.registry.has_handler snap.actionType with _ | _ <;>
        simp [RollbackCoordinator.rollback_action, hsnap, hh, hg, hr]
    · intro handler hg hh hr
      simp [RollbackCoordinator.rollback_action, hsnap, hh, hg, hr]

/-- **C4** witness for the amended theorem: at a state with no snapshot
for the id, `rollback_action` returns false and changes nothing. -/
theorem c4_amended_witness :
    dlookup (({ } : CoordinatorState)).snapshots "missing" = none
    ∧ RollbackCoordinator.rollback_action ({ } : CoordinatorState) "missing"
        = (false, ({ } : CoordinatorState)) :=
  ⟨rfl, (c4_rollback_action_amended ({ } : CoordinatorState) "missing").2.1 rfl⟩

theorem dlookup_dset_same {α : Type} (l : List (String × α)) (k : String)
    (v : α) : dlookup (dset l k v) k = some v := by
  simp [dlookup, dset]

theorem dlookup_filter_not_eq {α : Type} (l : List (String × α))
    (k : String) :
    dlookup (l.filter (fun p => !decide (p.1 = k))) k = none := by
  induction l with
  | nil => rfl
  | cons p rest ih =>
    obtain ⟨k', v⟩ := p
    rw [List.filter_cons]
    by_cases h : k' = k
    · simpa [h] using ih
    · simpa [h, dlookup] using ih

theorem toolWindow_setToolWindow_same (st : RateLimiterState)
    (key : String × String) (ts : List ℚ) :
    toolWindow (setToolWindow st key ts) key = ts := by
  simp [toolWindow, setToolWindow, List.find?]

theorem agentWindow_setAgentWindow_same (st : RateLimiterState)
    (a : String) (ts : List ℚ) :
    agentWindow (setAgentWindow st a ts) a = ts := by
  simp [agentWindow, setAgentWindow, dgetD, dlookup]

theorem agentWindow_setToolWindow (st : RateLimiterState)
    (key : String × String) (ts : List ℚ) (a : String) :
    agentWindow (setToolWindow st key ts) a = agentWindow st a := rfl

theorem toolWindow_setAgentWindow (st : RateLimiterState) (a : String)
    (ts : List ℚ) (key : String × String) :
    toolWindow (setAgentWindow st a ts) key = toolWindow st key := rfl

/-- **C5** (confirmed): `RateLimiter.evaluate` blocks exactly when the
pruned `(agent, action_type)` window count reaches the per-tool limit or
the pruned agent window count reaches the per-agent limit; the BLOCK
metadata identifies the limit that was hit; on ALLOW exactly one
timestamp (`now`) is appended to both windows; on BLOCK both stored
windows are sublists of the originals — pruned, never appended to. -/
theorem c5_rate_limiter_evaluate (cfg : RateLimiterCfg)
    (st : RateLimiterState) (intent : ActionIntent) (now : ℚ) :
    (((rateLimiterEvaluate cfg st intent now).1.verdict = .BLOCK) ↔
      ((getLimitForTool cfg intent.actionType).maxCalls ≤
          (pruneWindow (toolWindow st (intent.agentId, intent.actionType))
            (getLimitForTool cfg intent.actionType).periodSeconds
            now).length
        ∨ (getLimitForAgent cfg intent.agentId).maxCalls ≤
            (pruneWindow (agentWindow st intent.agentId)
              (getLimitForAgent cfg intent.agentId).periodSeconds
              now).length))
    ∧ ((rateLimiterEvaluate cfg st intent now).1.verdict ≠ .BLOCK →
        (rateLimiterEvaluate cfg st intent now).1.verdict = .ALLOW
        ∧ toolWindow (rateLimiterEvaluate cfg st intent now).2
            (intent.agentId, intent.actionType)
          = pruneWindow (toolWindow st (intent.agentId, intent.actionType))
              (getLimitForTool cfg intent.actionType).periodSeconds now
            ++ [now]
        ∧ agentWindow (rateLimiterEvaluate cfg st intent now).2
            intent.agentId
          = pruneWindow (agentWindow st intent.agentId)
              (getLimitForAgent cfg intent.agentId).periodSeconds now
            ++ [now])
    ∧ ((rateLimiterEvaluate cfg st intent now).1.verdict = .BLOCK →
        (toolWindow (rateLimiterEvaluate cfg st intent now).2
            (intent.agentId, intent.actionType)).Sublist
          (toolWindow st (intent.agentId, intent.actionType))
        ∧ (agentWindow (rateLimiterEvaluate cfg st intent now).2
            intent.agentId).Sublist (agentWindow st intent.agentId))
    ∧ ((getLimitForTool cfg intent.actionType).maxCalls ≤
          (pruneWindow (toolWindow st (intent.agentId, intent.actionType))
            (getLimitForTool cfg intent.actionType).periodSeconds
            now).length →
        dlookup (rateLimiterEvaluate cfg st intent now).1.metadata
            "tool_name" = some (.str intent.actionType))
    ∧ ((pruneWindow (toolWindow st (intent.agentId, intent.actionType))
          (getLimitForTool cfg intent.actionType).periodSeconds now).length
        < (getLimitForTool cfg intent.actionType).maxCalls →
        (getLimitForAgent cfg intent.agentId).maxCalls ≤
          (pruneWindow (agentWindow st intent.agentId)
            (getLimitForAgent cfg intent.agentId).periodSeconds
            now).length →
        dlookup (rateLimiterEvaluate cfg st intent now).1.metadata
            "agent_id" = some (.str intent.agentId)) := by
  simp only [rateLimiterEvaluate]
  split_ifs with h1 h2
  · refine ⟨iff_of_true rfl (Or.inl h1), ?_, ?_, ?_, ?_⟩
    · intro h; exact absurd rfl h
    · intro _
      rw [toolWindow_setToolWindow_same, agentWindow_setToolWindow]
      exact ⟨List.filter_sublist _, List.Sublist.refl _⟩
    · intro _; rfl
    · intro hlt _; omega
  · refine ⟨iff_of_true rfl (Or.inr h2), ?_, ?_, ?_, ?_⟩
    · intro h; exact absurd rfl h
    · intro _
      rw [toolWindow_setAgentWindow, toolWindow_setToolWindow_same,
        agentWindow_setAgentWindow_same]
      exact ⟨List.filter_sublist _, List.filter_sublist _⟩
    · intro h; omega
    · intro _ _; rfl
  · refine ⟨iff_of_false (by simp) (by omega), ?_, ?_, ?_, ?_⟩
    · intro _
      refine ⟨rfl, ?_, ?_⟩ <;>
        simp only [recordAction, toolWindow_setAgentWindow,
          toolWindow_setToolWindow_same, agentWindow_setToolWindow,
          agentWindow_setAgentWindow_same]
    · intro h; exact absurd h (by simp)
    · intro h; omega
    · intro _ h; omega

/-- **C6** (confirmed): recording the cost of an executed action under an
`action_id` (the facade's `record_cost` ledger update plus the companion
`register_action` per-action record) and then calling `recredit` for that
id returns the recredited amount, restores both `agent_spend[a]` and
`task_spend[t]` to their pre-record values clamped at zero, and removes
the per-action record; `recredit` of an id with no record returns 0 and
leaves the state — both ledgers included — unchanged. -/
theorem c6_recredit_invariant (st : BudgetState) (a t actionId : String)
    (c : ℚ) :
    ((GlobalBudgetManager.recredit
        (GlobalBudgetManager.register_action
          (GlobalBudgetManager.record_cost st a (some t) c) t a actionId c)
        t a actionId).1 = c
      ∧ dgetD (GlobalBudgetManager.recredit
          (GlobalBudgetManager.register_action
            (GlobalBudgetManager.record_cost st a (some t) c) t a actionId
            c)
          t a actionId).2.agentSpend a 0
        = max 0 (dgetD st.agentSpend a 0)
      ∧ dgetD (GlobalBudgetManager.recredit
          (GlobalBudgetManager.register_action
            (GlobalBudgetManager.record_cost st a (some t) c) t a actionId
            c)
          t a actionId).2.taskSpend t 0
        = max 0 (dgetD st.taskSpend t 0)
      ∧ dlookup (GlobalBudgetManager.recredit
          (GlobalBudgetManager.register_action
            (GlobalBudgetManager.record_cost st a (some t) c) t a actionId
            c)
          t a actionId).2.actionCosts actionId = none)
    ∧ (dlookup st.actionCosts actionId = none →
        GlobalBudgetManager.recredit st t a actionId = (0, st)) := by
  constructor
  · refine ⟨?_, ?_, ?_, ?_⟩ <;>
      simp [GlobalBudgetManager.recredit, dpop,
        GlobalBudgetManager.register_action,
        GlobalBudgetManager.record_cost, dlookup_dset_same,
        dgetD_dset_same, dlookup_filter_ne, dlookup_filter_not_eq,
        add_sub_cancel_right]
  · intro h
    simp [GlobalBudgetManager.recredit, dpop, h]

/-- **C6** witness: with empty ledgers, recording cost 3/2 for agent
`"a"` on task `"T"` under action `"id-1"` and recrediting returns 3/2 and
both ledgers read 0 again; recrediting an unknown id is a no-op returning
0. -/
theorem c6_recredit_witness :
    dgetD (GlobalBudgetManager.recredit
        (GlobalBudgetManager.register_action
          (GlobalBudgetManager.record_cost {} "a" (some "T") (3/2)) "T" "a"
          "id-1" (3/2))
        "T" "a" "id-1").2.agentSpend "a" 0
      = max 0 (dgetD ({} : BudgetState).agentSpend "a" 0)
    ∧ dlookup ({} : BudgetState).actionCosts "id-0" = none
    ∧ GlobalBudgetManager.recredit ({} : BudgetState) "T" "a" "id-0"
        = (0, ({} : BudgetState)) :=
  ⟨(c6_recredit_invariant {} "a" "T" "id-1" (3/2)).1.2.1, rfl,
   (c6_recredit_invariant {} "a" "T" "id-0" (3/2)).2 rfl⟩

/-- **C7** (counterexample): starting from empty ledgers, the
post-execution bookkeeping for an intent with estimated cost 1 changes
the cost estimator's per-agent spend map from 0 to 1 — spend-tracking
state outside the global budget manager does change, contrary to the
claim. -/
theorem c7_cost_estimator_spend_also_updated :
    dgetD (postExecutionCost {}
        { actionId := "a-2", actionType := "llm.call", agentId := "agent-1",
          taskId := some "T", estimatedCost := 1 } true).estimator.agentSpend
        "agent-1" 0 = 1
    ∧ dgetD ({} : GuardCostState).estimator.agentSpend "agent-1" 0 = 0 := by
  constructor
  · rw [postExecutionCost, if_pos (by norm_num)]
    simp [CostEstimator.record_cost, dgetD_dset_same, dgetD, dlookup]
  · rfl

/-- **C7** (amended): after a guarded call with positive estimated cost,
the post-execution bookkeeping adds the cost to the metrics counter, to
the global budget manager's ledgers, AND — whenever the cost-estimator
evaluator is configured — to the cost estimator's own per-agent and
per-task spend maps; only without a configured cost estimator is the
estimator state untouched. -/
theorem c7_post_execution_updates_both_ledgers (st : GuardCostState)
    (intent : ActionIntent) (h : 0 < intent.estimatedCost) :
    dgetD (postExecutionCost st intent true).budgeter.agentSpend
        intent.agentId 0
      = dgetD st.budgeter.agentSpend intent.agentId 0
        + intent.estimatedCost
    ∧ dgetD (postExecutionCost st intent true).estimator.agentSpend
        intent.agentId 0
      = dgetD st.estimator.agentSpend intent.agentId 0
        + intent.estimatedCost
    ∧ (∀ tsk, intent.taskId = some tsk →
        dgetD (postExecutionCost st intent true).budgeter.taskSpend tsk 0
          = dgetD st.budgeter.taskSpend tsk 0 + intent.estimatedCost
        ∧ dgetD (postExecutionCost st intent true).estimator.taskSpend tsk
            0
          = dgetD st.estimator.taskSpend tsk 0 + intent.estimatedCost)
    ∧ (postExecutionCost st intent true).metricsCost
      = st.metricsCost + intent.estimatedCost
    ∧ (postExecutionCost st intent false).estimator = st.estimator := by
  rw [postExecutionCost, if_pos h]
  refine ⟨?_, ?_, ?_, rfl, ?_⟩
  · rcases htask : intent.taskId with _ | tsk <;>
      simp [GlobalBudgetManager.record_cost, htask, dgetD_dset_same]
  · rcases htask : intent.taskId with _ | tsk <;>
      simp [CostEstimator.record_cost, htask, dgetD_dset_same]
  · intro tsk htask
    constructor
    · simp [GlobalBudgetManager.record_cost, htask, dgetD_dset_same]
    · simp [CostEstimator.record_cost, htask, dgetD_dset_same]
  · rw [postExecutionCost, if_pos h]
    rfl

/-- **C7** witness for the amended theorem at cost 1. -/
theorem c7_amended_witness :
    (0 : ℚ) < 1
    ∧ (postExecutionCost {}
        { actionId := "a-2", actionType := "llm.call", agentId := "agent-1",
          taskId := some "T", estimatedCost := 1 } true).metricsCost
      = ({} : GuardCostState).metricsCost + 1 :=
  ⟨by norm_num,
   (c7_post_execution_updates_both_ledgers {}
      { actionId := "a-2", actionType := "llm.call", agentId := "agent-1",
        taskId := some "T", estimatedCost := 1 }
      (by norm_num)).2.2.2.1⟩

/-- **C9** (confirmed): on a `TrustLedger` with `block_unknown = false`,
`get` for an unregistered agent returns a freshly built default profile
(zero counters, the default trust level's score) and stores nothing;
`record_action`, `record_violation` and `update_trust_score` mutate only
that throwaway object, leaving the ledger state unchanged, so a later
`get` still sees a pristine default profile. -/
theorem c9_unregistered_agent_mutations_are_noops (tl : TrustLedger)
    (agentId : String) (delta : ℚ) (success : Bool)
    (hb : tl.blockUnknown = false)
    (hu : dlookup tl.agents agentId = none) :
    TrustLedger.get tl agentId
      = .ok { agentId := agentId, trustLevel := tl.defaultTrustLevel,
              trustScore := tl.defaultTrustLevel.score }
    ∧ TrustLedger.record_action tl agentId success = .ok tl
    ∧ TrustLedger.record_violation tl agentId = .ok tl
    ∧ TrustLedger.update_trust_score tl agentId delta
      = .ok (max 0 (min 1 (tl.defaultTrustLevel.score + delta)), tl)
    ∧ (∃ p, TrustLedger.get tl agentId = .ok p ∧ p.actionCount = 0
        ∧ p.errorCount = 0 ∧ p.violationCount = 0
        ∧ p.trustScore = tl.defaultTrustLevel.score) := by
  refine ⟨?_, ?_, ?_, ?_, ?_⟩
  · simp [TrustLedger.get, hb, hu]
  · simp [TrustLedger.record_action, hb, hu]
  · simp [TrustLedger.record_violation, hb, hu]
  · simp [TrustLedger.update_trust_score, hb, hu]
  · exact ⟨{ agentId := agentId, trustLevel := tl.defaultTrustLevel,
             trustScore := tl.defaultTrustLevel.score },
           by simp [TrustLedger.get, hb, hu], rfl, rfl, rfl, rfl⟩

/-- **C9** witness: an empty non-blocking ledger and the unregistered
agent `"ghost"`. -/
theorem c9_unregistered_witness :
    ({ blockUnknown := false } : TrustLedger).blockUnknown = false
    ∧ dlookup ({ blockUnknown := false } : TrustLedger).agents "ghost"
        = none
    ∧ TrustLedger.record_violation
        ({ blockUnknown := false } : TrustLedger) "ghost"
      = .ok ({ blockUnknown := false } : TrustLedger) :=
  ⟨rfl, rfl,
   (c9_unregistered_agent_mutations_are_noops
      { blockUnknown := false } "ghost" 0 true rfl rfl).2.2.1⟩

/-- **C10** (confirmed): a CRITICAL-risk intent requires human approval
under the default configuration; an enabled `HumanGate` with no callback
configured auto-approves it (ALLOW) via `_default_approval_callback`, and
any configured callback that raises makes `evaluate` return BLOCK. -/
theorem c10_human_gate_default_and_raising (intent : ActionIntent)
    (cb : ApprovalCallback) (msg : String)
    (hc : intent.riskLevel = .CRITICAL) :
    (mkHumanGate none none none true).requiresApproval intent = true
    ∧ ((mkHumanGate none none none true).evaluate intent).verdict = .ALLOW
    ∧ (cb intent = .error msg →
        ((mkHumanGate (some cb) none none true).evaluate intent).verdict
          = .BLOCK) := by
  have hreq : (mkHumanGate none none none true).requiresApproval intent
      = true := by
    simp [mkHumanGate, HumanGate.requiresApproval, hc]
  refine ⟨hreq, ?_, ?_⟩
  · simp [HumanGate.evaluate, mkHumanGate, HumanGate.requiresApproval, hc,
      defaultApprovalCallback]
  · intro hcb
    simp [HumanGate.evaluate, mkHumanGate, HumanGate.requiresApproval, hc,
      hcb]

/-- **C10** witness: a CRITICAL intent, auto-approved by the default
gate, and blocked under a callback that raises. -/
theorem c10_human_gate_witness :
    ({ actionId := "a-3", actionType := "db.drop", agentId := "agent-1",
       riskLevel := .CRITICAL } : ActionIntent).riskLevel = .CRITICAL
    ∧ ((mkHumanGate none none none true).evaluate
        { actionId := "a-3", actionType := "db.drop", agentId := "agent-1",
          riskLevel := .CRITICAL }).verdict = .ALLOW
    ∧ ((mkHumanGate (some (fun _ => .error "approval service down")) none
        none true).evaluate
        { actionId := "a-3", actionType := "db.drop", agentId := "agent-1",
          riskLevel := .CRITICAL }).verdict = .BLOCK := by
  have h := c10_human_gate_default_and_raising
    { actionId := "a-3", actionType := "db.drop", agentId := "agent-1",
      riskLevel := .CRITICAL }
    (fun _ => .error "approval service down") "approval service down" rfl
  exact ⟨rfl, h.2.1, h.2.2 rfl⟩

end PlyraGuard
